import Mathlib

/-!
Verification of the glhl headless OpenGL context library.

The Go sources are shallowly embedded: the EGL / GBM / OS backend is an
abstract oracle (a record of the outcomes of the native calls), machine
pointers are naturals with 0 for the null handle, and the acquisition state
of file descriptors and GBM device objects is threaded explicitly through a
small world record so that resource leaks are observable.
-/

namespace Glhl

/-- Native pointers and EGL handles; 0 models the null value
(EGL_NO_DISPLAY, EGL_NO_CONTEXT, nil). -/
abbrev Handle := Nat

def EGL_NO_DISPLAY : Handle := 0

def EGL_NO_CONTEXT : Handle := 0

/-- EGL_SUCCESS from the EGL headers. -/
def EGL_SUCCESS : Nat := 0x3000

def EGL_CONTEXT_MAJOR_VERSION : Int := 0x3098

def EGL_CONTEXT_MINOR_VERSION : Int := 0x30FB

def EGL_CONTEXT_OPENGL_PROFILE_MASK : Int := 0x30FD

def EGL_CONTEXT_OPENGL_DEBUG : Int := 0x31B0

def EGL_NONE : Int := 0x3038

def EGL_CONTEXT_OPENGL_CORE_PROFILE_BIT : Nat := 0x1

def EGL_CONTEXT_OPENGL_COMPATIBILITY_PROFILE_BIT : Nat := 0x2

/-- Flag constants from `type Flag int`, `Core Flag = 1 << iota`. -/
def Core : Nat := 1

def Compatibility : Nat := 2

def Debug : Nat := 4

/-- The Go struct `Context` of the GBM variant: EGLDisplay, EGLContext,
`*gbm_device` (0 = nil) and the `*os.File` device node, modelled by its
file descriptor (`none` = nil). -/
structure Context where
  dpy : Handle
  ctx : Handle
  gbm : Handle
  gbmf : Option Nat
deriving Repr, DecidableEq

/-- `Context{}`, the Go zero value. -/
def Context.zero : Context := ⟨0, 0, 0, none⟩

/-- Process resource state: file descriptors currently open and GBM device
objects currently allocated. Used to make leaks observable. -/
structure World where
  openFds : List Nat
  liveGbm : List Handle
deriving Repr, DecidableEq

def World.init : World := ⟨[], []⟩

/-- Go error values produced by the library (the `error` results). -/
inductive GoErr where
  | errNoDisplay
  | errNoConfig
  | errUnsupported
  | errGBM
  | osError (code : Nat)
  | wrapped (stage : String) (inner : Option Nat)
deriving Repr, DecidableEq

/-- `eglError()`: nil when the last error code is EGL_SUCCESS, otherwise
`Error(code)`. -/
def eglErrorOf (code : Nat) : Option Nat :=
  if code = EGL_SUCCESS then none else some code

def stageEglInit : String := "eglInitialize"

def stageChooseConfig : String := "eglChooseConfig"

def stageBindAPI : String := "eglBindAPI"

def stageCreateContext : String := "eglCreateContext"

def gbmExtName : String := "EGL_MESA_platform_gbm"

/-- Whether `pat` is an initial run of `l`. -/
def leadsWith : List Char → List Char → Bool
  | [], _ => true
  | _ :: _, [] => false
  | a :: as, b :: bs => a = b && leadsWith as bs

/-- Whether `pat` occurs contiguously inside `l`. -/
def hasRun (l pat : List Char) : Bool :=
  match l with
  | [] => pat.isEmpty
  | _ :: rest => leadsWith pat l || hasRun rest pat

/-- Go strings.Contains, on the characters of the two strings. -/
def goContains (s sub : String) : Bool :=
  hasRun s.data sub.data

/-- Outcomes of the native EGL / GBM / OS calls the library performs. An
oracle fixes what each call returns; theorems quantify over oracles. -/
structure Oracle where
  /-- eglGetDisplay(EGL_DEFAULT_DISPLAY) -/
  getDisplay : Handle
  /-- whether eglInitialize(d, NULL, NULL) succeeds -/
  eglInitOk : Handle → Bool
  /-- eglGetError() after a failed eglInitialize(d) -/
  eglInitErr : Handle → Nat
  /-- eglQueryString(EGL_NO_DISPLAY, EGL_EXTENSIONS); none = NULL -/
  queryExt : Option String
  /-- os.OpenFile of /dev/dri/card0: some fd, or none on error -/
  openDev : Option Nat
  /-- an identifier for the os.OpenFile error value -/
  openDevErr : Nat
  /-- gbm_create_device(fd); 0 = NULL -/
  gbmCreateDevice : Nat → Handle
  /-- eglGetPlatformDisplay(EGL_PLATFORM_GBM_MESA, gbm, NULL); 0 = NO_DISPLAY -/
  getPlatformDisplay : Handle → Handle
  /-- whether eglChooseConfig(d, configAttr, &conf, 1, &nconf) returns true -/
  chooseConfigOk : Handle → Bool
  /-- eglGetError() after a failed eglChooseConfig -/
  chooseConfigErr : Nat
  /-- nconf written by a successful eglChooseConfig -/
  chooseConfigN : Handle → Int
  /-- the config token written by a successful eglChooseConfig -/
  chooseConfigConf : Handle → Nat
  /-- whether eglBindAPI(EGL_OPENGL_API) succeeds -/
  bindAPI : Bool
  /-- eglGetError() after a failed eglBindAPI -/
  bindAPIErr : Nat
  /-- eglCreateContext(d, conf, EGL_NO_CONTEXT, attrs) together with the
  eglGetError() value observed right after the call -/
  createContextP : Handle → Nat → List Int → Handle × Nat
  /-- eglCreateContext(d, conf, sharedWith, attrs) of the shared-context
  variant, with the share handle as third argument, and the return code -/
  createContextS : Handle → Nat → Handle → List Int → Handle × Nat
  /-- whether eglMakeCurrent(d, NO_SURFACE, NO_SURFACE, c) succeeds -/
  makeCurrentOk : Handle → Handle → Bool
  /-- eglGetError() after a failed eglMakeCurrent -/
  makeCurrentErr : Handle → Handle → Nat
  /-- whether eglDestroyContext(d, c) succeeds -/
  destroyCtxOk : Handle → Handle → Bool
  /-- eglGetError() after a failed eglDestroyContext -/
  destroyErr : Nat
  /-- whether eglReleaseThread() succeeds -/
  releaseOk : Bool
  /-- eglGetError() after a failed eglReleaseThread -/
  releaseErr : Nat

/-- Result of a stage of context construction: the Go `ctx` under
construction, the process resource state, and the Go error (none = nil). -/
structure RState where
  ctx : Context
  w : World
  err : Option GoErr
deriving Repr, DecidableEq

/-- `initGeneric` of the GBM variant: obtain the default display and
initialize it. -/
def initGeneric (o : Oracle) (c : Context) : Context × Option GoErr :=
  let c := { c with dpy := o.getDisplay }
  if c.dpy = EGL_NO_DISPLAY then (c, some .errNoDisplay)
  else if o.eglInitOk c.dpy = false then
    (c, some (.wrapped stageEglInit (eglErrorOf (o.eglInitErr c.dpy))))
  else (c, none)

/-- `initGBM` of the GBM variant: check the platform extension, open
/dev/dri/card0, allocate a gbm device, obtain and initialize the platform
display. Resource acquisition and the releases the source performs are
recorded in the world. -/
def initGBM (o : Oracle) (c : Context) (w : World) : RState :=
  match o.queryExt with
  | none => ⟨c, w, some .errUnsupported⟩
  | some ext =>
    if goContains ext gbmExtName = false then ⟨c, w, some .errUnsupported⟩
    else
      match o.openDev with
      | none => ⟨c, w, some (.osError o.openDevErr)⟩
      | some fd =>
        let c := { c with gbmf := some fd }
        let w := { w with openFds := fd :: w.openFds }
        let c := { c with gbm := o.gbmCreateDevice fd }
        if c.gbm = 0 then
          ⟨c, { w with openFds := w.openFds.erase fd }, some .errGBM⟩
        else
          let w := { w with liveGbm := c.gbm :: w.liveGbm }
          let c := { c with dpy := o.getPlatformDisplay c.gbm }
          if c.dpy = EGL_NO_DISPLAY then
            ⟨c, ⟨w.openFds.erase fd, w.liveGbm.erase c.gbm⟩, some .errNoDisplay⟩
          else if o.eglInitOk c.dpy = false then
            ⟨c, w, some (.wrapped stageEglInit (eglErrorOf (o.eglInitErr c.dpy)))⟩
          else ⟨c, w, none⟩

/-- The display-resolution prefix of `newContext` (GBM variant): try
`initGeneric`; on failure try `initGBM`; on double failure keep the
generic error. -/
def resolveDisplay (o : Oracle) : RState :=
  match initGeneric o Context.zero with
  | (c, none) => ⟨c, World.init, none⟩
  | (c, some err) =>
    match initGBM o c World.init with
    | ⟨c2, w2, some _⟩ => ⟨c2, w2, some err⟩
    | ⟨c2, w2, none⟩ => ⟨c2, w2, none⟩

/-- The profile computation of `newContext`: OR in the compatibility bit
when the Compatibility flag is set; OR in the core bit when the Core flag
is set or no profile bit has been set. -/
def profileMask (flags : Nat) : Nat :=
  let profile : Nat := 0
  let profile :=
    if flags &&& Compatibility ≠ 0 then
      profile ||| EGL_CONTEXT_OPENGL_COMPATIBILITY_PROFILE_BIT
    else profile
  let profile :=
    if flags &&& Core ≠ 0 ∨ profile = 0 then
      profile ||| EGL_CONTEXT_OPENGL_CORE_PROFILE_BIT
    else profile
  profile

/-- The ctxAttr list built by `newContext` (GBM variant): version, profile
mask, optionally the debug attribute, then EGL_NONE. -/
def ctxAttrList (major minor : Int) (flags : Nat) : List Int :=
  let l := [EGL_CONTEXT_MAJOR_VERSION, major, EGL_CONTEXT_MINOR_VERSION, minor,
    EGL_CONTEXT_OPENGL_PROFILE_MASK, (profileMask flags : Int)]
  let l := if flags &&& Debug ≠ 0 then l ++ [EGL_CONTEXT_OPENGL_DEBUG, 1] else l
  l ++ [EGL_NONE]

/-- `newContext` of the GBM variant: display resolution with fallback,
config selection, API bind, context creation. Every failure returns the
Go zero `Context{}` together with the error; the world records which
resources are still held at return. -/
def newContext (o : Oracle) (major minor : Int) (flags : Nat) : RState :=
  let r := resolveDisplay o
  match r.err with
  | some err => ⟨Context.zero, r.w, some err⟩
  | none =>
    if o.chooseConfigOk r.ctx.dpy = false then
      ⟨Context.zero, r.w, some (.wrapped stageChooseConfig (eglErrorOf o.chooseConfigErr))⟩
    else if o.chooseConfigN r.ctx.dpy < 1 then
      ⟨Context.zero, r.w, some .errNoConfig⟩
    else if o.bindAPI = false then
      ⟨Context.zero, r.w, some (.wrapped stageBindAPI (eglErrorOf o.bindAPIErr))⟩
    else
      let pr := o.createContextP r.ctx.dpy (o.chooseConfigConf r.ctx.dpy)
        (ctxAttrList major minor flags)
      match eglErrorOf pr.2 with
      | some c => ⟨Context.zero, r.w, some (.wrapped stageCreateContext (some c))⟩
      | none => ⟨{ r.ctx with ctx := pr.1 }, r.w, none⟩

/-- The Go struct `Context` of the shared-context variant (glhl.go):
only the display and context handles. -/
structure ContextG where
  dpy : Handle
  ctx : Handle
deriving Repr, DecidableEq

def ContextG.zero : ContextG := ⟨0, 0⟩

/-- The arguments handed to eglCreateContext by the C helper
`glhlNewContext`: display, config, share handle, attribute list. -/
structure CreateCall where
  dpy : Handle
  conf : Nat
  shared : Handle
  attrs : List Int
deriving Repr, DecidableEq

/-- The ctxAttr array of the C helper `glhlNewContext` (shared-context
variant): version, profile mask, debug boolean, EGL_NONE. -/
def ctxAttrG (major minor : Int) (profile : Nat) (debug : Bool) : List Int :=
  [EGL_CONTEXT_MAJOR_VERSION, major, EGL_CONTEXT_MINOR_VERSION, minor,
    EGL_CONTEXT_OPENGL_PROFILE_MASK, (profile : Int),
    EGL_CONTEXT_OPENGL_DEBUG, if debug then 1 else 0, EGL_NONE]

/-- The C helper `glhlNewContext` of the shared-context variant. Returns
the status code (eglGetError(), or the local sentinel -1 for zero
matching configs), the display and context handles written through the
out-parameters, and the eglCreateContext call that was issued, if any. -/
def glhlNewContextC (o : Oracle) (major minor : Int) (profile : Nat)
    (debug : Bool) (sharedWith : Handle) :
    Int × Handle × Handle × Option CreateCall :=
  let d := o.getDisplay
  if o.eglInitOk d = false then ((o.eglInitErr d : Int), d, 0, none)
  else if o.chooseConfigOk d = false then ((o.chooseConfigErr : Int), d, 0, none)
  else if o.chooseConfigN d < 1 then (-1, d, 0, none)
  else if o.bindAPI = false then ((o.bindAPIErr : Int), d, 0, none)
  else
    let conf := o.chooseConfigConf d
    let attrs := ctxAttrG major minor profile debug
    let pr := o.createContextS d conf sharedWith attrs
    ((pr.2 : Int), d, pr.1, some ⟨d, conf, sharedWith, attrs⟩)

/-- Result of the shared-context variant construction: the Go `Context`,
the Go error (some code = `Error(code)`), and the create call issued. -/
structure GResult where
  ctx : ContextG
  err : Option Int
  call : Option CreateCall
deriving Repr, DecidableEq

/-- `newContext` of the shared-context variant (glhl.go): profile and
debug computation in Go, then the C helper; a status other than
EGL_SUCCESS yields `Context{}, Error(code)`. -/
def newContextG (o : Oracle) (major minor : Int) (flags : Nat)
    (sharedWith : Handle) : GResult :=
  let profile := profileMask flags
  let debug := flags &&& Debug ≠ 0
  let r := glhlNewContextC o major minor profile (decide debug) sharedWith
  if r.1 ≠ (EGL_SUCCESS : Int) then ⟨ContextG.zero, some r.1, r.2.2.2⟩
  else ⟨⟨r.2.1, r.2.2.1⟩, none, r.2.2.2⟩

/-- `NewContext` of the shared-context variant: share handle is
EGL_NO_CONTEXT. -/
def NewContextG (o : Oracle) (major minor : Int) (flags : Nat) : GResult :=
  newContextG o major minor flags EGL_NO_CONTEXT

/-- `NewSharedContext`: share handle is the existing context's handle. -/
def NewSharedContextG (o : Oracle) (major minor : Int) (flags : Nat)
    (sharedWith : ContextG) : GResult :=
  newContextG o major minor flags sharedWith.ctx

/-- Release actions performed during teardown. -/
inductive RelEvent where
  | destroyContext (dpy ctx : Handle)
  | destroyGbmDevice (g : Handle)
  | closeFd (f : Option Nat)
deriving Repr, DecidableEq

/-- The body of `Destroy` (GBM variant), on the value-receiver copy `c`:
eglDestroyContext, panicking on failure, then, when the gbm device is
present, gbm_device_destroy and the file close. Returns the receiver as
the body leaves it, the releases performed, and the panic code if any. -/
def destroyBody (o : Oracle) (c : Context) : Context × List RelEvent × Option Nat :=
  if o.destroyCtxOk c.dpy c.ctx = false then (c, [], some o.destroyErr)
  else if c.gbm ≠ 0 then
    (c, [.destroyContext c.dpy c.ctx, .destroyGbmDevice c.gbm, .closeFd c.gbmf], none)
  else (c, [.destroyContext c.dpy c.ctx], none)

/-- The native calls made by the C helper `glhlMakeContextCurrent`. -/
inductive MCStep where
  | bindAPI
  | makeCurrent
deriving Repr, DecidableEq

/-- Outcome of `MakeContextCurrent`: normal return, or a Go panic
carrying `Error(code)`. -/
inductive MCOutcome where
  | ok
  | panicked (code : Nat)
deriving Repr, DecidableEq

/-- The C helper `glhlMakeContextCurrent`: eglBindAPI, then
eglMakeCurrent, returning EGL_SUCCESS or the first failing call's
eglGetError(); also records which native calls ran. -/
def glhlMakeContextCurrentC (o : Oracle) (dpy ctxh : Handle) : Nat × List MCStep :=
  if o.bindAPI = false then (o.bindAPIErr, [.bindAPI])
  else if o.makeCurrentOk dpy ctxh = false then
    (o.makeCurrentErr dpy ctxh, [.bindAPI, .makeCurrent])
  else (EGL_SUCCESS, [.bindAPI, .makeCurrent])

/-- The body of `MakeContextCurrent` (GBM variant) on the value-receiver
copy `c`: run the C helper and panic unless it returned EGL_SUCCESS. -/
def makeContextCurrentBody (o : Oracle) (c : Context) :
    Context × MCOutcome × List MCStep :=
  let r := glhlMakeContextCurrentC o c.dpy c.ctx
  (c, if r.1 ≠ EGL_SUCCESS then .panicked r.1 else .ok, r.2)

/-- The body of the free function `Release`: eglReleaseThread, panicking
on failure. -/
def releaseBody (o : Oracle) : Option Nat :=
  if o.releaseOk = false then some o.releaseErr else none

/-- A caller holding a Context `c` across a call to `Release()`:
`Release` takes no Context at all, so the caller's value is untouched. -/
def releaseCall (o : Oracle) (c : Context) : Context × Option Nat :=
  (c, releaseBody o)

/-- A backend on which every native call succeeds via the generic path:
default display 4, config token 11, created context handle 9. -/
def okOracle : Oracle :=
  { getDisplay := 4
    eglInitOk := fun _ => true
    eglInitErr := fun _ => 0x3001
    queryExt := some gbmExtName
    openDev := some 3
    openDevErr := 5
    gbmCreateDevice := fun _ => 7
    getPlatformDisplay := fun _ => 5
    chooseConfigOk := fun _ => true
    chooseConfigErr := 0x3001
    chooseConfigN := fun _ => 1
    chooseConfigConf := fun _ => 11
    bindAPI := true
    bindAPIErr := 0x3003
    createContextP := fun _ _ _ => (9, 0x3000)
    createContextS := fun _ _ _ _ => (9, 0x3000)
    makeCurrentOk := fun _ _ => true
    makeCurrentErr := fun _ _ => 0x3006
    destroyCtxOk := fun _ _ => true
    destroyErr := 0x3006
    releaseOk := true
    releaseErr := 0x3001 }

/-- A backend where the generic display is unavailable, the GBM path
succeeds fully, and then eglChooseConfig fails. -/
def leakOracle : Oracle :=
  { okOracle with getDisplay := 0, chooseConfigOk := fun _ => false }

/-- A backend where the generic display is unavailable and the GBM
platform display (handle 5) fails to initialize after the device was
opened and allocated. -/
def gbmInitFailOracle : Oracle :=
  { okOracle with getDisplay := 0, eglInitOk := fun _ => false }

/-- A backend where the generic display is unavailable and the GBM
extension is not advertised, so both strategies fail. -/
def extMissingOracle : Oracle :=
  { okOracle with getDisplay := 0, queryExt := none }

/-- A backend where the config query succeeds but matches zero configs. -/
def noConfigOracle : Oracle :=
  { okOracle with chooseConfigN := fun _ => 0 }

/-- A backend where eglBindAPI fails. -/
def bindFailOracle : Oracle :=
  { okOracle with bindAPI := false }

/-- A backend where eglMakeCurrent fails. -/
def mcFailOracle : Oracle :=
  { okOracle with makeCurrentOk := fun _ _ => false }

example : (newContext okOracle 3 3 0).err = none := by decide

example : (newContext okOracle 3 3 0).ctx = ⟨4, 9, 0, none⟩ := by decide

example : newContext extMissingOracle 3 3 0 =
    ⟨Context.zero, World.init, some .errNoDisplay⟩ := by decide

example : (newContext leakOracle 3 3 0).w = ⟨[3], [7]⟩ := by decide

example : (newContext gbmInitFailOracle 3 3 0).w = ⟨[3], [7]⟩ := by decide

example : (newContext gbmInitFailOracle 3 3 0).err = some .errNoDisplay := by decide

example : profileMask 0 = 1 ∧ profileMask 4 = 1 ∧ profileMask 2 = 2 ∧
    profileMask 3 = 3 ∧ profileMask 1 = 1 := by decide

example : ctxAttrList 3 3 4 =
    [0x3098, 3, 0x30FB, 3, 0x30FD, 1, 0x31B0, 1, 0x3038] := by decide

example : NewContextG okOracle 3 3 0 =
    ⟨⟨4, 9⟩, none, some ⟨4, 11, 0, ctxAttrG 3 3 1 false⟩⟩ := by decide

theorem eglErrorOf_eq_none {c : Nat} (h : eglErrorOf c = none) :
    c = EGL_SUCCESS := by
  unfold eglErrorOf at h
  split_ifs at h with hc
  exact hc

theorem initGeneric_none_dpy (o : Oracle) (c : Context) :
    (initGeneric o c).2 = none → (initGeneric o c).1.dpy ≠ 0 := by
  unfold initGeneric
  dsimp only
  split_ifs with h1 h2 <;> simp_all [EGL_NO_DISPLAY]

theorem initGBM_none_dpy (o : Oracle) (c : Context) (w : World) :
    (initGBM o c w).err = none → (initGBM o c w).ctx.dpy ≠ 0 := by
  unfold initGBM
  repeat' split
  all_goals intro h
  all_goals dsimp only at h
  all_goals repeat' split at h
  all_goals simp_all [EGL_NO_DISPLAY]

theorem resolveDisplay_none_dpy (o : Oracle)
    (h : (resolveDisplay o).err = none) : (resolveDisplay o).ctx.dpy ≠ 0 := by
  revert h
  unfold resolveDisplay
  split
  next c heq =>
    intro _
    have hg := initGeneric_none_dpy o Context.zero (by rw [heq])
    rw [heq] at hg
    exact hg
  next c err heq =>
    split
    next => simp
    next c2 w2 heq2 =>
      intro _
      have hb := initGBM_none_dpy o c World.init (by rw [heq2])
      rw [heq2] at hb
      exact hb

/-- C4: the profile mask handed to context creation ORs in the
compatibility bit when the Compatibility flag is set and the core bit
when the Core flag is set or no profile bit has been set; zero flags and
Debug alone both request the core profile, and the mask is the sixth
entry of the context-creation attribute list. -/
theorem profile_selection_spec (flags : Nat) (major minor : Int) :
    profileMask flags =
      (if flags &&& Compatibility ≠ 0 then
        EGL_CONTEXT_OPENGL_COMPATIBILITY_PROFILE_BIT else 0) |||
      (if flags &&& Core ≠ 0 ∨ flags &&& Compatibility = 0 then
        EGL_CONTEXT_OPENGL_CORE_PROFILE_BIT else 0) ∧
    profileMask 0 = EGL_CONTEXT_OPENGL_CORE_PROFILE_BIT ∧
    profileMask Debug = EGL_CONTEXT_OPENGL_CORE_PROFILE_BIT ∧
    (ctxAttrList major minor flags).take 6 =
      [EGL_CONTEXT_MAJOR_VERSION, major, EGL_CONTEXT_MINOR_VERSION, minor,
        EGL_CONTEXT_OPENGL_PROFILE_MASK, (profileMask flags : Int)] := by
  refine ⟨?_, by decide, by decide, ?_⟩
  · by_cases hc : flags &&& Compatibility = 0 <;>
      by_cases hk : flags &&& Core = 0 <;>
        simp [profileMask, hc, hk,
          EGL_CONTEXT_OPENGL_COMPATIBILITY_PROFILE_BIT,
          EGL_CONTEXT_OPENGL_CORE_PROFILE_BIT]
  · simp only [ctxAttrList]
    split <;> simp

/-- C6: NewSharedContext runs exactly the construction NewContext runs,
with the existing context's handle as the sharing reference in place of
EGL_NO_CONTEXT; the eglCreateContext call it issues differs from
NewContext's call only in the shared field. -/
theorem shared_context_same_steps (o : Oracle) (major minor : Int)
    (flags : Nat) (ex : ContextG) :
    NewSharedContextG o major minor flags ex =
      newContextG o major minor flags ex.ctx ∧
    NewContextG o major minor flags =
      newContextG o major minor flags EGL_NO_CONTEXT ∧
    ∀ s : Handle, (newContextG o major minor flags s).call =
      Option.map (fun c => { c with shared := s })
        (newContextG o major minor flags EGL_NO_CONTEXT).call := by
  refine ⟨rfl, rfl, fun s => ?_⟩
  simp only [newContextG, glhlNewContextC]
  split_ifs <;> simp

/-- C10: Destroy, MakeContextCurrent and Release leave every field of the
caller's Context untouched; nothing marks a Context as destroyed. -/
theorem methods_leave_context_unchanged (o : Oracle) (c : Context) :
    (destroyBody o c).1 = c ∧ (makeContextCurrentBody o c).1 = c ∧
    (releaseCall o c).1 = c := by
  refine ⟨?_, rfl, rfl⟩
  simp only [destroyBody]
  split
  · rfl
  · split <;> rfl

/-- C5: Destroy on a successfully constructed Context releases the
rendering context first, then — exactly when a gbm device is present —
the device object and its file descriptor, and the device release
happens exactly once. -/
theorem destroy_release_order (o : Oracle) (c : Context)
    (h : o.destroyCtxOk c.dpy c.ctx = true) :
    (destroyBody o c).2 =
      (RelEvent.destroyContext c.dpy c.ctx ::
        (if c.gbm ≠ 0 then
          [RelEvent.destroyGbmDevice c.gbm, RelEvent.closeFd c.gbmf]
        else []), none) ∧
    (destroyBody o c).2.1.count (RelEvent.destroyGbmDevice c.gbm) =
      (if c.gbm ≠ 0 then 1 else 0) := by
  unfold destroyBody
  rw [h]
  by_cases hg : c.gbm = 0
  · simp [hg]
  · simp [hg, List.count_cons]

/-- C5 witness: a GBM-backed context, device handle 7 on fd 3, is torn
down context-first, device exactly once. -/
theorem destroy_release_order_witness :
    (destroyBody okOracle ⟨5, 9, 7, some 3⟩).2 =
      (RelEvent.destroyContext 5 9 ::
        (if (7 : Handle) ≠ 0 then
          [RelEvent.destroyGbmDevice 7, RelEvent.closeFd (some 3)]
        else []), none) ∧
    (destroyBody okOracle ⟨5, 9, 7, some 3⟩).2.1.count
        (RelEvent.destroyGbmDevice 7) = (if (7 : Handle) ≠ 0 then 1 else 0) :=
  destroy_release_order okOracle ⟨5, 9, 7, some 3⟩ rfl

/-- C1: when generic display resolution fails and the device-backed
strategy also fails, the error returned is the generic strategy's error;
the device-backed error is dropped. -/
theorem fallback_surfaces_generic_error (o : Oracle) (major minor : Int)
    (flags : Nat) (eg : GoErr)
    (hg : (initGeneric o Context.zero).2 = some eg)
    (hb : (initGBM o (initGeneric o Context.zero).1 World.init).err ≠ none) :
    (newContext o major minor flags).err = some eg := by
  unfold newContext resolveDisplay
  rcases hG : initGeneric o Context.zero with ⟨c, e⟩
  rw [hG] at hg hb
  simp only at hg
  subst hg
  rcases hB : initGBM o c World.init with ⟨c2, w2, e2⟩
  rw [hB] at hb
  simp only at hb
  cases e2 with
  | none => simp at hb
  | some b => simp [hB]

/-- C1 witness: generic resolution fails with ErrNoDisplay, the GBM
extension is missing, and ErrNoDisplay is what the caller receives. -/
theorem fallback_surfaces_generic_error_witness :
    (newContext extMissingOracle 3 3 0).err = some GoErr.errNoDisplay :=
  fallback_surfaces_generic_error extMissingOracle 3 3 0 GoErr.errNoDisplay
    (by decide) (by decide)

/-- C3: a Context returned with a nil error has a non-null display handle
and a non-null rendering context handle, for any backend on which
eglCreateContext only returns EGL_NO_CONTEXT together with an error
code. -/
theorem success_yields_valid_handles (o : Oracle) (major minor : Int)
    (flags : Nat)
    (hcc : ∀ d cf a, (o.createContextP d cf a).2 = EGL_SUCCESS →
      (o.createContextP d cf a).1 ≠ 0)
    (hok : (newContext o major minor flags).err = none) :
    (newContext o major minor flags).ctx.dpy ≠ 0 ∧
    (newContext o major minor flags).ctx.ctx ≠ 0 := by
  have hd := resolveDisplay_none_dpy o
  revert hok
  simp only [newContext]
  cases hre : (resolveDisplay o).err with
  | some err => simp
  | none =>
    dsimp only
    split_ifs
    · simp
    · simp
    · simp
    · split
      · simp
      next hnone =>
        intro _
        refine ⟨hd hre, ?_⟩
        exact hcc _ _ _ (eglErrorOf_eq_none hnone)

/-- C3 witness: on a fully working backend the returned handles are the
display 4 and the context 9, both non-null. -/
theorem success_yields_valid_handles_witness :
    (newContext okOracle 3 3 0).ctx.dpy ≠ 0 ∧
    (newContext okOracle 3 3 0).ctx.ctx ≠ 0 :=
  success_yields_valid_handles okOracle 3 3 0
    (fun d cf a _ => by simp [okOracle]) (by decide)

/-- C7: after display resolution succeeds, a successful native config
query matching zero configs yields ErrNoConfig while a failing query
yields the wrapped backend error, and the two are distinct values. -/
theorem noconfig_vs_queryfailure (o : Oracle) (major minor : Int)
    (flags : Nat) (hres : (resolveDisplay o).err = none) :
    (o.chooseConfigOk (resolveDisplay o).ctx.dpy = true →
      o.chooseConfigN (resolveDisplay o).ctx.dpy < 1 →
      (newContext o major minor flags).err = some GoErr.errNoConfig) ∧
    (o.chooseConfigOk (resolveDisplay o).ctx.dpy = false →
      (newContext o major minor flags).err =
        some (GoErr.wrapped stageChooseConfig (eglErrorOf o.chooseConfigErr))) ∧
    (∀ x, GoErr.errNoConfig ≠ GoErr.wrapped stageChooseConfig x) := by
  refine ⟨?_, ?_, by simp⟩
  · intro h1 h2
    simp only [newContext]
    rw [hres]
    dsimp only
    simp [h1, h2]
  · intro h1
    simp only [newContext]
    rw [hres]
    dsimp only
    simp [h1]

/-- C7 witness: zero matches produce ErrNoConfig; a failed query produces
the wrapped backend error. -/
theorem noconfig_vs_queryfailure_witness :
    (newContext noConfigOracle 3 3 0).err = some GoErr.errNoConfig ∧
    (newContext leakOracle 3 3 0).err =
      some (GoErr.wrapped stageChooseConfig (eglErrorOf leakOracle.chooseConfigErr)) :=
  ⟨(noconfig_vs_queryfailure noConfigOracle 3 3 0 (by decide)).1 rfl (by decide),
   (noconfig_vs_queryfailure leakOracle 3 3 0 (by decide)).2.1 rfl⟩

/-- C8: MakeContextCurrent binds the OpenGL API and then makes the
context current; it returns normally when both native steps succeed and
panics with the mapped backend error when either fails. -/
theorem makeCurrent_bind_then_current (o : Oracle) (c : Context) :
    (o.bindAPI = true → o.makeCurrentOk c.dpy c.ctx = true →
      makeContextCurrentBody o c = (c, .ok, [.bindAPI, .makeCurrent])) ∧
    (o.bindAPI = false → o.bindAPIErr ≠ EGL_SUCCESS →
      makeContextCurrentBody o c = (c, .panicked o.bindAPIErr, [.bindAPI])) ∧
    (o.bindAPI = true → o.makeCurrentOk c.dpy c.ctx = false →
      o.makeCurrentErr c.dpy c.ctx ≠ EGL_SUCCESS →
      makeContextCurrentBody o c =
        (c, .panicked (o.makeCurrentErr c.dpy c.ctx), [.bindAPI, .makeCurrent])) := by
  refine ⟨fun h1 h2 => ?_, fun h1 h2 => ?_, fun h1 h2 h3 => ?_⟩
  · simp [makeContextCurrentBody, glhlMakeContextCurrentC, h1, h2]
  · simp [makeContextCurrentBody, glhlMakeContextCurrentC, h1, h2]
  · simp [makeContextCurrentBody, glhlMakeContextCurrentC, h1, h2, h3]

/-- C8 witness: a working backend activates; a failed bind panics with
the bind error; a failed make-current panics with its error. -/
theorem makeCurrent_bind_then_current_witness :
    makeContextCurrentBody okOracle ⟨4, 9, 0, none⟩ =
      (⟨4, 9, 0, none⟩, .ok, [.bindAPI, .makeCurrent]) ∧
    makeContextCurrentBody bindFailOracle ⟨4, 9, 0, none⟩ =
      (⟨4, 9, 0, none⟩, .panicked 0x3003, [.bindAPI]) ∧
    makeContextCurrentBody mcFailOracle ⟨4, 9, 0, none⟩ =
      (⟨4, 9, 0, none⟩, .panicked 0x3006, [.bindAPI, .makeCurrent]) :=
  ⟨(makeCurrent_bind_then_current okOracle ⟨4, 9, 0, none⟩).1 rfl rfl,
   (makeCurrent_bind_then_current bindFailOracle ⟨4, 9, 0, none⟩).2.1 rfl (by decide),
   (makeCurrent_bind_then_current mcFailOracle ⟨4, 9, 0, none⟩).2.2 rfl rfl (by decide)⟩

/-- C9: whenever construction returns an error, the Context handed back
is the zero Context, in both the GBM variant and the shared-context
variant. -/
theorem error_yields_zero_context (o : Oracle) (major minor : Int)
    (flags : Nat) :
    (∀ e : GoErr, (newContext o major minor flags).err = some e →
      (newContext o major minor flags).ctx = Context.zero) ∧
    (∀ (s : Handle) (code : Int),
      (newContextG o major minor flags s).err = some code →
      (newContextG o major minor flags s).ctx = ContextG.zero) := by
  constructor
  · intro e h
    revert h
    simp only [newContext]
    cases hre : (resolveDisplay o).err with
    | some err => simp
    | none =>
      dsimp only
      split_ifs
      · simp
      · simp
      · simp
      · split <;> simp
  · intro s code h
    revert h
    simp only [newContextG, glhlNewContextC]
    split_ifs <;> simp

/-- C9 witness: two failing constructions, one per variant, both return
the zero Context. -/
theorem error_yields_zero_context_witness :
    (newContext leakOracle 3 3 0).ctx = Context.zero ∧
    (newContextG noConfigOracle 3 3 0 0).ctx = ContextG.zero :=
  ⟨(error_yields_zero_context leakOracle 3 3 0).1
      (GoErr.wrapped stageChooseConfig (some 0x3001)) (by decide),
   (error_yields_zero_context noConfigOracle 3 3 0).2 0 (-1) (by decide)⟩

/-- C2: the code violates the release-on-failure property. With the
generic display unavailable and the GBM path having opened fd 3 and
allocated device 7, a later eglChooseConfig failure returns the error
with fd 3 still open and device 7 still allocated; likewise a failing
platform-display initialization inside the GBM path returns the generic
error with both resources still held. -/
theorem gbm_resources_leak_on_failure :
    newContext leakOracle 3 3 0 =
      ⟨Context.zero, ⟨[3], [7]⟩,
        some (.wrapped stageChooseConfig (some 0x3001))⟩ ∧
    newContext gbmInitFailOracle 3 3 0 =
      ⟨Context.zero, ⟨[3], [7]⟩, some .errNoDisplay⟩ ∧
    (⟨[3], [7]⟩ : World) ≠ World.init := by decide

end Glhl
